import Mathlib

/-!
Shallow embedding of the OAuth2 authorization server in `server/website.py`
(the lastuser repository): the data model (`Client`, `AuthCode`, `AuthToken`,
`User`, `UserEmail`), the authorization endpoint `oauth_authorize` and the
token endpoint `oauth_token`, together with theorems checking the
natural-language specification against this embedding.

Conventions of the embedding:
* Database rows live in a `Store`; SQLAlchemy `query.filter_by(...).first()`
  becomes `List.find?` over the corresponding list.
* `datetime.utcnow()` is an integer number of seconds (`Int`), threaded in as
  the parameter `now`; `timedelta(minutes=1)` is the literal `60`.
* Randomly generated identifiers (`newid`, `newsecret`) are threaded in as
  explicit `fresh*` string parameters.
* Request URLs are parsed: a `Url` structure stands for the string, and
  `urlparse.urlsplit(u).hostname` is the field `u.hostname`.  An absent or
  empty (Python-falsy) `redirect_uri` request parameter is `none`.
* Flask responses become inductive results: the token endpoint's JSON error
  is `.error`, the `raise oauth_token_error(...)` statement (which aborts the
  handler abnormally instead of returning) is `.raised`, and an uncaught
  Python exception (e.g. `AttributeError` on `None`, or
  `urlparse.urlsplit(None)` inside `make_redirect_url`) is `.crash` /
  `.abort`.
* `check_password_hash` (werkzeug library code, outside the repository) is an
  abstract parameter `checkpw : Option String → String → Bool` applied to the
  stored `pw_hash` and the supplied password.
-/

namespace Lastuser

/-- Helper for `pySplitSpace`: walk the characters, `acc` holding the
current token reversed. -/
def pySplitAux : List Char → List Char → List String
  | [], acc => [String.mk acc.reverse]
  | c :: cs, acc =>
    if c = ' ' then String.mk acc.reverse :: pySplitAux cs []
    else pySplitAux cs (c :: acc)

/-- Python `s.split(u' ')` with an explicit separator: a token boundary at
every single space.  It always returns at least one element, and the empty
string yields `[""]`. -/
def pySplitSpace (s : String) : List String := pySplitAux s.toList []

/-- Python `u' '.join(l)`. -/
def joinSpace (l : List String) : String := String.intercalate " " l

/-- Python truthiness of an optional string: `not x` holds for `None` and for
the empty string. -/
def pyTruthy : Option String → Bool
  | none => false
  | some s => !s.isEmpty

/-- A parsed URL; `hostname` is what `urlparse.urlsplit(u).hostname` returns.
Two request URLs are equal iff their parses are equal. -/
structure Url where
  scheme : String
  hostname : String
  path : String
  query : List (String × String)
deriving DecidableEq, Repr

/-- `Client` model: an OAuth client application (protocol-relevant fields). -/
structure Client where
  id : Nat
  redirect_uri : Url
  active : Bool
  key : String
  secret : String
  trusted : Bool
deriving DecidableEq, Repr

/-- `AuthCode` model: a short-lived authorization token.  `scopeStr` embeds
the `_scope` column (scope stored space-joined); `used` is the single-use
flag declared on the model. -/
structure AuthCode where
  user_id : Nat
  client_id : Nat
  code : String
  scopeStr : String
  redirect_uri : Url
  datetime : Int
  used : Bool
deriving DecidableEq, Repr

/-- The `scope` property of `AuthCode`: `self._scope.split(u' ')`. -/
def AuthCode.scope (a : AuthCode) : List String := pySplitSpace a.scopeStr

/-- `AuthToken` model: an access token.  `scopeStr` embeds the `_scope`
column.  Column defaults relevant here: `token_type='bearer'`,
`validity=0`. -/
structure AuthToken where
  user_id : Option Nat
  client_id : Nat
  token : String
  token_type : String
  secret : Option String
  scopeStr : String
  validity : Nat
  refresh_token : String
deriving DecidableEq, Repr

/-- The `scope` property of `AuthToken`: `self._scope.split(u' ')`. -/
def AuthToken.scope (t : AuthToken) : List String := pySplitSpace t.scopeStr

/-- `User` model (protocol-relevant fields).  `username` is nullable;
`pw_hash` is nullable. -/
structure User where
  id : Nat
  username : Option String
  pw_hash : Option String
deriving DecidableEq, Repr

/-- `UserEmail` model: the `user` relation is carried inline (it is a
non-nullable foreign key in the source). -/
structure UserEmail where
  email : String
  user : User
deriving DecidableEq, Repr

/-- The database tables the two OAuth endpoints read and write. -/
structure Store where
  clients : List Client
  authcodes : List AuthCode
  tokens : List AuthToken
  users : List User
  useremails : List UserEmail
deriving DecidableEq, Repr

/-- Outcome of the authorization endpoint `/auth`.
`errorRedirect u state error desc uri` stands for
`redirect(make_redirect_url(u, error=..., state=..., ...), 302)` built by
`oauth_auth_error`; `successRedirect` for `oauth_auth_success`;
`response403` for `oauth_auth_403`; `renderForm` for rendering
`authorize.html`; `abort` for an uncaught exception. -/
inductive AuthResult where
  | response403 (reason : String)
  | errorRedirect (redirect_uri : Url) (state : Option String) (error : String)
      (error_description : Option String) (error_uri : Option String)
  | successRedirect (redirect_uri : Url) (state : Option String) (code : String)
  | renderForm (redirect_uri : Url) (scope : List String) (state : Option String)
  | abort (reason : String)
deriving DecidableEq, Repr

/-- `oauth_auth_403(reason)`: direct 403 response for `/auth`. -/
def oauth_auth_403 (reason : String) : AuthResult := .response403 reason

/-- `oauth_auth_error(redirect_uri, state, error, error_description,
error_uri)`: redirect the error to the client.  When called with
`redirect_uri = None`, `make_redirect_url` invokes `urlparse.urlsplit(None)`,
which raises: the handler aborts abnormally. -/
def oauth_auth_error (redirect_uri : Option Url) (state : Option String)
    (error : String) (error_description : Option String)
    (error_uri : Option String) : AuthResult :=
  match redirect_uri with
  | some u => .errorRedirect u state error error_description error_uri
  | none => .abort "make_redirect_url: urlsplit(None) raises"

/-- `oauth_auth_success(redirect_uri, state, code)`: commit and redirect with
the code (and `state` when present). -/
def oauth_auth_success (redirect_uri : Url) (state : Option String)
    (code : String) : AuthResult :=
  .successRedirect redirect_uri state code

/-- `oauth_make_auth_code(client, scope, redirect_uri)`: build an `AuthCode`
row for the logged-in user; `code` is a fresh `newsecret()`, `datetime`
defaults to `utcnow`, `used` defaults to `False`. -/
def oauth_make_auth_code (guser : Nat) (client : Client) (scope : List String)
    (redirect_uri : Url) (now : Int) (freshCode : String) : AuthCode :=
  { user_id := guser, client_id := client.id, code := freshCode,
    scopeStr := joinSpace scope, redirect_uri := redirect_uri,
    datetime := now, used := false }

/-- The request parameters of `/auth` (`request.args`), plus the request
method and the consent-form outcome (`form.validate_on_submit()`, and whether
`accept` / `deny` appears in `request.form`).  `redirect_uri = none` models a
Python-falsy (absent or empty) parameter. -/
structure AuthRequest where
  response_type : Option String
  client_id : Option String
  redirect_uri : Option Url
  scope : Option String
  state : Option String
  method_get : Bool
  form_valid : Bool
  form_accept : Bool
  form_deny : Bool
deriving DecidableEq, Repr

/-- The tail of `oauth_authorize` after Validation 1.4 (redirect-URI
cross-check): response_type checks, scope checks, trusted-client bypass and
the consent form.  `redirect_uri` is the value the earlier code settled on
(the registered URI when the request supplied none). -/
def oauth_authorize_validated (store : Store) (guser : Nat) (now : Int)
    (freshCode : String) (req : AuthRequest) (client : Client)
    (scope : List String) (redirect_uri : Url) : AuthResult × Store :=
  let state := req.state
  -- Validation 2.1: Is response_type present?
  if !(pyTruthy req.response_type) then
    (oauth_auth_error (some redirect_uri) state "invalid_request"
      (some "response_type missing") none, store)
  -- Validation 2.2: Is response_type acceptable? (`not in [u'code']`)
  else if !(["code"].contains (req.response_type.getD "")) then
    (oauth_auth_error (some redirect_uri) state "unsupported_response_type"
      none none, store)
  -- Validation 3.1: Scope present? (`if not scope`)
  else if scope.isEmpty then
    (oauth_auth_error (some redirect_uri) state "invalid_request"
      (some "Scope not specified") none, store)
  -- `if scope != [u'id']`
  else if scope ≠ ["id"] then
    (oauth_auth_error (some redirect_uri) state "invalid_scope" none none,
      store)
  -- Trusted-client bypass on GET
  else if req.method_get && client.trusted then
    let authcode := oauth_make_auth_code guser client scope redirect_uri now
      freshCode
    (oauth_auth_success redirect_uri state authcode.code,
      { store with authcodes := store.authcodes ++ [authcode] })
  -- Consent form: accepted
  else if req.form_valid && req.form_accept then
    let authcode := oauth_make_auth_code guser client scope redirect_uri now
      freshCode
    (oauth_auth_success redirect_uri state authcode.code,
      { store with authcodes := store.authcodes ++ [authcode] })
  -- Consent form: denied
  else if req.form_valid && req.form_deny then
    (oauth_auth_error (some redirect_uri) state "access_denied" none none,
      store)
  -- GET request or POST with invalid CSRF (or neither button): show the form
  else
    (.renderForm redirect_uri scope state, store)

/-- `oauth_authorize`: the `/auth` endpoint (the `@requires_login` wrapper
guarantees an authenticated user `guser`). -/
def oauth_authorize (store : Store) (guser : Nat) (now : Int)
    (freshCode : String) (req : AuthRequest) : AuthResult × Store :=
  let scope := pySplitSpace (req.scope.getD "")
  let state := req.state
  -- Validation 1.1: client_id present
  if !(pyTruthy req.client_id) then
    if req.redirect_uri.isSome then
      (oauth_auth_error req.redirect_uri state "invalid_request"
        (some "client_id missing") none, store)
    else
      (oauth_auth_403 "Missing client_id", store)
  else
    -- Validation 1.2: client exists
    match store.clients.find? (fun c => c.key == req.client_id.getD "") with
    | none =>
      if req.redirect_uri.isSome then
        (oauth_auth_error req.redirect_uri state "unauthorized_client" none
          none, store)
      else
        (oauth_auth_403 "Unknown client_id", store)
    | some client =>
      -- Validation 1.3: is the client active?
      if !client.active then
        (oauth_auth_error req.redirect_uri state "unauthorized_client" none
          none, store)
      else
        -- Validation 1.4: cross-check redirect_uri
        match req.redirect_uri with
        | none =>
          oauth_authorize_validated store guser now freshCode req client scope
            client.redirect_uri
        | some u =>
          if u ≠ client.redirect_uri &&
              u.hostname != client.redirect_uri.hostname then
            (oauth_auth_error (some u) state "invalid_request"
              (some "Redirect URI hostname doesn't match") none, store)
          else
            oauth_authorize_validated store guser now freshCode req client
              scope u

/-- Outcome of the token endpoint `/token`.  `.error` is the returned JSON
error (HTTP 400) built by `oauth_token_error`; `.success params token` is the
JSON success response (with the token row committed to the store);
`.raised` is the `raise oauth_token_error(...)` statement, which aborts the
handler instead of returning; `.crash` is any other uncaught exception. -/
inductive TokenResult where
  | error (error : String) (error_description : Option String)
  | success (params : List (String × String)) (token : AuthToken)
  | raised (error : String) (error_description : Option String)
  | crash (reason : String)
deriving DecidableEq, Repr

/-- `oauth_token_error(error, error_description)`: JSON error, status 400. -/
def oauth_token_error (error : String) (error_description : Option String) :
    TokenResult :=
  .error error error_description

/-- `oauth_make_token(user, client, scope)`: build an `AuthToken` row; the
constructor defaults give `token_type='bearer'` and `validity=0`, then
`token`, `refresh_token` and `secret` are overwritten with fresh ids. -/
def oauth_make_token (user : Option Nat) (client : Client)
    (scope : List String) (freshToken freshRefresh freshSecret : String) :
    AuthToken :=
  { user_id := user, client_id := client.id, token := freshToken,
    token_type := "bearer", secret := some freshSecret,
    scopeStr := joinSpace scope, validity := 0,
    refresh_token := freshRefresh }

/-- `oauth_token_success(token)`: the JSON success body.  `expires_in` and
`refresh_token` are added only when `token.validity` is truthy (nonzero). -/
def oauth_token_success (token : AuthToken) : List (String × String) :=
  let params := [("access_token", token.token),
    ("token_type", token.token_type),
    ("scope", joinSpace token.scope)]
  if token.validity ≠ 0 then
    params ++ [("expires_in", toString token.validity),
      ("refresh_token", token.refresh_token)]
  else
    params

/-- The form parameters of `/token` (`request.form`). -/
structure TokenRequest where
  grant_type : Option String
  client_id : Option String
  client_secret : Option String
  scope : Option String
  code : Option String
  redirect_uri : Option Url
  username : Option String
  password : Option String
deriving DecidableEq, Repr

/-- Shared tail of the password grant after the user lookup: `if not user`,
`check_password`, then issue the token. -/
def oauth_token_password_finish (checkpw : Option String → String → Bool)
    (store : Store) (client : Client) (scope : List String)
    (password : String) (user : Option User)
    (freshToken freshRefresh freshSecret : String) : TokenResult × Store :=
  match user with
  | none => (oauth_token_error "invalid_client" (some "No such user"), store)
  | some user =>
    if !(checkpw user.pw_hash password) then
      (oauth_token_error "invalid_client" (some "Password mismatch"), store)
    else
      let token := oauth_make_token (some user.id) client scope freshToken
        freshRefresh freshSecret
      (.success (oauth_token_success token) token,
        { store with tokens := store.tokens ++ [token] })

/-- The `grant_type == 'authorization_code'` branch of `oauth_token`
(Validations 3 onward). -/
def oauth_token_grant_authcode (store : Store) (client : Client) (now : Int)
    (scope : List String) (req : TokenRequest)
    (freshToken freshRefresh freshSecret : String) : TokenResult × Store :=
  -- Validations 3: auth code
  match store.authcodes.find?
      (fun a => some a.code == req.code && a.client_id == client.id) with
  | none =>
    (oauth_token_error "invalid_grant" (some "Unknown auth code"), store)
  | some authcode =>
    if authcode.datetime < now - 60 then
      (oauth_token_error "invalid_grant" (some "Expired auth code"), store)
    -- Validations 3.1: scope in authcode
    else if scope.isEmpty then
      (oauth_token_error "invalid_scope" (some "Scope is blank"), store)
    else if !(scope.all (fun s => authcode.scope.contains s)) then
      -- `raise oauth_token_error(...)`: aborts instead of returning
      (.raised "invalid_scope" (some "Scope expanded"), store)
    else
      -- else-branch: scope := whatever the authcode allows
      let scope := authcode.scope
      if req.redirect_uri ≠ some authcode.redirect_uri then
        (oauth_token_error "invalid_client"
          (some "redirect_uri does not match"), store)
      else
        let token := oauth_make_token (some authcode.user_id) client scope
          freshToken freshRefresh freshSecret
        (.success (oauth_token_success token) token,
          { store with tokens := store.tokens ++ [token] })

/-- The `grant_type == 'client_credentials'` branch of `oauth_token`. -/
def oauth_token_grant_clientcred (store : Store) (client : Client)
    (scope : List String) (freshToken freshRefresh freshSecret : String) :
    TokenResult × Store :=
  let token := oauth_make_token none client scope freshToken freshRefresh
    freshSecret
  (.success (oauth_token_success token) token,
    { store with tokens := store.tokens ++ [token] })

/-- The `grant_type == 'password'` branch of `oauth_token`
(Validations 4 onward). -/
def oauth_token_grant_password (checkpw : Option String → String → Bool)
    (store : Store) (client : Client) (scope : List String)
    (req : TokenRequest) (freshToken freshRefresh freshSecret : String) :
    TokenResult × Store :=
  -- Validations 4.1: password grant_type only for trusted clients
  if !client.trusted then
    (oauth_token_error "unauthorized_client"
      (some "Client is not trusted for password grant_type"), store)
  -- Validations 4.2: username and password provided and correct?
  else if !(pyTruthy req.username) || !(pyTruthy req.password) then
    (oauth_token_error "invalid_request"
      (some "Username or password not provided"), store)
  else
    let username := req.username.getD ""
    let password := req.password.getD ""
    -- `'@' in username`
    if username.toList.contains '@' then
      -- `UserEmail.query.filter_by(email=username).first().user`:
      -- when no row matches, `.user` on `None` raises AttributeError
      match store.useremails.find? (fun e => e.email == username) with
      | none =>
        (.crash "AttributeError: NoneType has no attribute user", store)
      | some ue =>
        oauth_token_password_finish checkpw store client scope password
          (some ue.user) freshToken freshRefresh freshSecret
    else
      oauth_token_password_finish checkpw store client scope password
        (store.users.find? (fun u => u.username == some username))
        freshToken freshRefresh freshSecret

/-- `oauth_token`: the `/token` endpoint (required-parameter and client
validations, then the dispatch on `grant_type`). -/
def oauth_token (checkpw : Option String → String → Bool) (store : Store)
    (now : Int) (freshToken freshRefresh freshSecret : String)
    (req : TokenRequest) : TokenResult × Store :=
  let scope := pySplitSpace (req.scope.getD "")
  -- Validations 1: required parameters
  if !(pyTruthy req.grant_type) || !(pyTruthy req.client_id) ||
      !(pyTruthy req.client_secret) then
    (oauth_token_error "invalid_request" none, store)
  else
    let grant_type := req.grant_type.getD ""
    -- grant_type == 'refresh_token' is not supported
    if !(["authorization_code", "client_credentials",
        "password"].contains grant_type) then
      (oauth_token_error "unsupported_grant_type" none, store)
    else
      -- Validations 2: client
      match store.clients.find? (fun c => c.key == req.client_id.getD "") with
      | none =>
        (oauth_token_error "invalid_client" (some "Unknown client_id"), store)
      | some client =>
        if !client.active then
          (oauth_token_error "invalid_client" (some "Unknown client_id"),
            store)
        else if req.client_secret.getD "" ≠ client.secret then
          (oauth_token_error "invalid_client" (some "client_secret mismatch"),
            store)
        else if grant_type == "password" && !client.trusted then
          (oauth_token_error "unauthorized_client"
            (some "Client not trusted for password grant_type"), store)
        else if grant_type == "authorization_code" then
          oauth_token_grant_authcode store client now scope req freshToken
            freshRefresh freshSecret
        else if grant_type == "client_credentials" then
          oauth_token_grant_clientcred store client scope freshToken
            freshRefresh freshSecret
        else if grant_type == "password" then
          oauth_token_grant_password checkpw store client scope req
            freshToken freshRefresh freshSecret
        else
          -- unreachable: every accepted grant_type is dispatched above;
          -- Python would fall off the function and return None
          (.crash "fell through grant_type dispatch", store)

/-- The token-endpoint result is a success response. -/
def TokenResult.isSuccess : TokenResult → Bool
  | .success _ _ => true
  | _ => false

/-- The OAuth error code carried by an authorization-endpoint error
redirect, if any. -/
def AuthResult.errorCode : AuthResult → Option String
  | .errorRedirect _ _ e _ _ => some e
  | _ => none

/-- A registered callback URL used by the concrete scenarios. -/
def cbUrl : Url :=
  { scheme := "https", hostname := "app.example", path := "/cb", query := [] }

/-- A callback URL on a different host. -/
def evilUrl : Url :=
  { scheme := "https", hostname := "evil.example", path := "/cb",
    query := [] }

/-- An active untrusted client used by the concrete scenarios. -/
def clientA : Client :=
  { id := 1, redirect_uri := cbUrl, active := true, key := "ckey",
    secret := "csecret", trusted := false }

/-- An active trusted client. -/
def clientT : Client :=
  { id := 2, redirect_uri := cbUrl, active := true, key := "tkey",
    secret := "tsecret", trusted := true }

/-- A known but deactivated client. -/
def clientInactive : Client :=
  { id := 3, redirect_uri := cbUrl, active := false, key := "ikey",
    secret := "isecret", trusted := false }

/-- An authorization code issued to `clientA` at time 0 with scope `id`. -/
def authcodeA : AuthCode :=
  { user_id := 7, client_id := 1, code := "code1", scopeStr := "id",
    redirect_uri := cbUrl, datetime := 0, used := false }

/-- A store holding the three clients and the one authorization code. -/
def store0 : Store :=
  { clients := [clientA, clientT, clientInactive],
    authcodes := [authcodeA], tokens := [], users := [], useremails := [] }

/-- Password checker for the concrete scenarios: every password is wrong
(the scenarios below never reach a password check). -/
def nopw : Option String → String → Bool := fun _ _ => false

/-- A well-formed authorization_code token request for `authcodeA`. -/
def c1Req : TokenRequest :=
  { grant_type := some "authorization_code", client_id := some "ckey",
    client_secret := some "csecret", scope := some "id",
    code := some "code1", redirect_uri := some cbUrl, username := none,
    password := none }

/-- Authorization request from the inactive client with no redirect_uri. -/
def c4Req : AuthRequest :=
  { response_type := some "code", client_id := some "ikey",
    redirect_uri := none, scope := some "id", state := none,
    method_get := true, form_valid := false, form_accept := false,
    form_deny := false }

/-- Password-grant token request with an unregistered email username. -/
def c5Req : TokenRequest :=
  { grant_type := some "password", client_id := some "tkey",
    client_secret := some "tsecret", scope := some "id", code := none,
    redirect_uri := none, username := some "ghost@example.com",
    password := some "pw" }

/-- Authorization request with an empty scope parameter. -/
def c3Req : AuthRequest :=
  { response_type := some "code", client_id := some "ckey",
    redirect_uri := none, scope := some "", state := none,
    method_get := true, form_valid := false, form_accept := false,
    form_deny := false }

/-- A client_credentials token request from `clientA`. -/
def ccReq : TokenRequest :=
  { grant_type := some "client_credentials", client_id := some "ckey",
    client_secret := some "csecret", scope := some "id", code := none,
    redirect_uri := none, username := none, password := none }

/-- The token the client_credentials scenario issues. -/
def ccToken : AuthToken := oauth_make_token none clientA ["id"] "t1" "r1" "s1"

/-- Authorization request with neither client_id nor redirect_uri. -/
def c8ReqBare : AuthRequest :=
  { response_type := some "code", client_id := none, redirect_uri := none,
    scope := some "id", state := none, method_get := true,
    form_valid := false, form_accept := false, form_deny := false }

/-- Authorization request with no client_id but a redirect_uri. -/
def c8ReqRedirect : AuthRequest :=
  { c8ReqBare with redirect_uri := some cbUrl }

/-- Authorization request from `clientA` with a redirect_uri on a
different host. -/
def c6Req : AuthRequest :=
  { response_type := some "code", client_id := some "ckey",
    redirect_uri := some evilUrl, scope := some "id", state := none,
    method_get := true, form_valid := false, form_accept := false,
    form_deny := false }

/-! Helper lemmas about the embedding. -/

theorem pySplitAux_ne_nil (cs acc : List Char) : pySplitAux cs acc ≠ [] := by
  induction cs generalizing acc with
  | nil => simp [pySplitAux]
  | cons c cs ih =>
    simp only [pySplitAux]
    split
    · simp
    · exact ih _

/-- Python `split` always returns at least one token. -/
theorem pySplitSpace_ne_nil (s : String) : pySplitSpace s ≠ [] :=
  pySplitAux_ne_nil s.toList []

theorem pySplitSpace_isEmpty (s : String) :
    (pySplitSpace s).isEmpty = false := by
  cases h : pySplitSpace s with
  | nil => exact absurd h (pySplitSpace_ne_nil s)
  | cons a l => rfl

/-! Theorems settling the claims. -/

/-- C1: the claim says a consumed authorization code must fail any further
token exchange with `invalid_grant`.  The code never sets or checks the
`used` flag: here the very same exchange for code `code1` succeeds twice in
a row (the second run starts from the store the first run committed), and
the second run is not an `invalid_grant` failure. -/
theorem C1_authcode_redeemable_twice :
    (oauth_token nopw store0 10 "t1" "r1" "s1" c1Req).1.isSuccess = true ∧
    (oauth_token nopw store0 10 "t1" "r1" "s1" c1Req).2.authcodes =
      [authcodeA] ∧
    (oauth_token nopw
        (oauth_token nopw store0 10 "t1" "r1" "s1" c1Req).2
        20 "t2" "r2" "s2" c1Req).1.isSuccess = true ∧
    (oauth_token nopw
        (oauth_token nopw store0 10 "t1" "r1" "s1" c1Req).2
        20 "t2" "r2" "s2" c1Req).1 ≠
      .error "invalid_grant" (some "Unknown auth code") := by decide

/-- C2: the claim says a non-subset scope makes the flow return (not
abnormally abort with) an `invalid_scope` error, and that an omitted scope
inherits the grant's scope.  The code instead executes
`raise oauth_token_error('invalid_scope', "Scope expanded")`, aborting the
handler abnormally — and an omitted scope splits to `[""]`, which is not a
subset of the grant's scope `["id"]`, so it aborts the same way instead of
inheriting the grant scope. -/
theorem C2_scope_mismatch_raises :
    (oauth_token nopw store0 10 "t1" "r1" "s1"
        { c1Req with scope := some "id email" }).1 =
      .raised "invalid_scope" (some "Scope expanded") ∧
    (oauth_token nopw store0 10 "t1" "r1" "s1"
        { c1Req with scope := none }).1 =
      .raised "invalid_scope" (some "Scope expanded") := by decide

/-- C3 counterexample: an authorization request with an empty `scope`
parameter (which splits to `[""]`) is answered with `invalid_scope`, not
with the `invalid_request` the claim requires; and a scope of `"id id"`,
set-equal to `{"id"}`, is also rejected with `invalid_scope` because the
code compares token lists, not sets. -/
theorem C3_empty_scope_counterexample :
    (oauth_authorize store0 7 0 "ac1" c3Req).1 =
      .errorRedirect cbUrl none "invalid_scope" none none ∧
    (oauth_authorize store0 7 0 "ac1" c3Req).1.errorCode ≠
      some "invalid_request" ∧
    (oauth_authorize store0 7 0 "ac1"
        { c3Req with scope := some "id id" }).1 =
      .errorRedirect cbUrl none "invalid_scope" none none := by decide

/-- C4: the claim says a known-but-inactive client with no supplied
redirect_uri gets a direct error response, never a redirect and never an
abnormal abort.  The code reaches Validation 1.3 before the redirect-URI
cross-check has defaulted `redirect_uri`, and calls `oauth_auth_error` with
`redirect_uri = None`, so `make_redirect_url` raises inside
`urlparse.urlsplit(None)`: the handler aborts abnormally.  (With a supplied
redirect_uri the `unauthorized_client` error is indeed issued, as a
redirect.) -/
theorem C4_inactive_client_without_redirect_aborts :
    (oauth_authorize store0 7 0 "ac1" c4Req).1 =
      .abort "make_redirect_url: urlsplit(None) raises" ∧
    (oauth_authorize store0 7 0 "ac1"
        { c4Req with redirect_uri := some cbUrl }).1 =
      .errorRedirect cbUrl none "unauthorized_client" none none := by decide

/-- C5: the claim says an email-form username matching no registered email
makes the password grant return `invalid_client`; the user-lookup step is
total.  The code evaluates
`UserEmail.query.filter_by(email=username).first().user` and `.user` on
`None` raises `AttributeError`: the handler crashes.  (The non-email lookup
is total and does return `invalid_client`.) -/
theorem C5_password_grant_unknown_email_crashes :
    (oauth_token nopw store0 10 "t1" "r1" "s1" c5Req).1 =
      .crash "AttributeError: NoneType has no attribute user" ∧
    (oauth_token nopw store0 10 "t1" "r1" "s1"
        { c5Req with username := some "ghost" }).1 =
      .error "invalid_client" (some "No such user") := by decide

/-- C8: when `client_id` is Python-falsy (absent or empty), the
authorization flow renders a direct 403 response if no redirect_uri was
supplied, and redirects with `invalid_request` if one was. -/
theorem C8_missing_client_id (store : Store) (guser : Nat) (now : Int)
    (freshCode : String) (req : AuthRequest)
    (h : pyTruthy req.client_id = false) :
    (req.redirect_uri = none →
      (oauth_authorize store guser now freshCode req).1 =
        .response403 "Missing client_id") ∧
    (∀ u : Url, req.redirect_uri = some u →
      (oauth_authorize store guser now freshCode req).1 =
        .errorRedirect u req.state "invalid_request"
          (some "client_id missing") none) := by
  constructor
  · intro hu
    simp [oauth_authorize, h, hu, oauth_auth_403]
  · intro u hu
    simp [oauth_authorize, h, hu, oauth_auth_error]

/-- C8 witness: concrete instances of both halves. -/
theorem C8_missing_client_id_witness :
    (oauth_authorize store0 7 0 "ac1" c8ReqBare).1 =
        .response403 "Missing client_id" ∧
    (oauth_authorize store0 7 0 "ac1" c8ReqRedirect).1 =
        .errorRedirect cbUrl none "invalid_request"
          (some "client_id missing") none :=
  ⟨(C8_missing_client_id store0 7 0 "ac1" _ (by decide)).1 rfl,
   (C8_missing_client_id store0 7 0 "ac1" _ (by decide)).2 cbUrl rfl⟩

/-- C6: for a request that resolves to an active client, the redirect-URI
cross-check behaves as claimed: with no supplied redirect_uri the registered
one is used and validation proceeds; a supplied redirect_uri whose hostname
differs from the registered one is rejected with `invalid_request`; one with
a matching hostname (any path or query) is accepted and validation proceeds
with the supplied URI. -/
theorem C6_redirect_uri_hostname_check (store : Store) (guser : Nat)
    (now : Int) (freshCode : String) (req : AuthRequest) (client : Client)
    (hidt : pyTruthy req.client_id = true)
    (hcid : req.client_id = some client.key)
    (hfind : store.clients.find? (fun c => c.key == client.key) =
      some client)
    (hact : client.active = true) :
    (req.redirect_uri = none →
      oauth_authorize store guser now freshCode req =
        oauth_authorize_validated store guser now freshCode req client
          (pySplitSpace (req.scope.getD "")) client.redirect_uri) ∧
    (∀ u : Url, req.redirect_uri = some u →
      u.hostname ≠ client.redirect_uri.hostname →
      (oauth_authorize store guser now freshCode req).1 =
        .errorRedirect u req.state "invalid_request"
          (some "Redirect URI hostname doesn't match") none) ∧
    (∀ u : Url, req.redirect_uri = some u →
      u.hostname = client.redirect_uri.hostname →
      oauth_authorize store guser now freshCode req =
        oauth_authorize_validated store guser now freshCode req client
          (pySplitSpace (req.scope.getD "")) u) := by
  have hidt' : pyTruthy (some client.key) = true := by
    rw [hcid] at hidt
    exact hidt
  refine ⟨?_, ?_, ?_⟩
  · intro hu
    simp [oauth_authorize, hidt', hcid, hfind, hact, hu]
  · intro u hu hhost
    have hne : u ≠ client.redirect_uri := by
      intro he
      exact hhost (by rw [he])
    simp [oauth_authorize, hidt', hcid, hfind, hact, hu, hne, hhost,
      oauth_auth_error]
  · intro u hu hhost
    simp [oauth_authorize, hidt', hcid, hfind, hact, hu, hhost]

/-- C6 witness: the hostname-mismatch half at a concrete request. -/
theorem C6_redirect_uri_hostname_check_witness :
    (oauth_authorize store0 7 0 "ac1" c6Req).1 =
      .errorRedirect evilUrl none "invalid_request"
        (some "Redirect URI hostname doesn't match") none :=
  (C6_redirect_uri_hostname_check store0 7 0 "ac1" c6Req clientA (by decide)
      rfl (by decide) (by decide)).2.1 evilUrl rfl (by decide)

/-- C3 amended: after client and redirect-URI validation, with a valid
`response_type`, every scope parameter whose space-split token list is not
exactly `["id"]` — including the empty parameter, which splits to `[""]` —
is answered with an `invalid_scope` error redirect.  (The `invalid_request`
"Scope not specified" branch is unreachable: a split token list is never
empty.) -/
theorem C3_scope_not_id_invalid_scope (store : Store) (guser : Nat)
    (now : Int) (freshCode : String) (req : AuthRequest) (client : Client)
    (redirect_uri : Url)
    (hrt : req.response_type = some "code")
    (hscope : pySplitSpace (req.scope.getD "") ≠ ["id"]) :
    (oauth_authorize_validated store guser now freshCode req client
        (pySplitSpace (req.scope.getD "")) redirect_uri).1 =
      .errorRedirect redirect_uri req.state "invalid_scope" none none := by
  simp [oauth_authorize_validated, hrt, hscope, pySplitSpace_isEmpty,
    oauth_auth_error, pyTruthy]
  rfl

/-- C3 amended witness: the empty scope parameter at a concrete request. -/
theorem C3_scope_not_id_invalid_scope_witness :
    (oauth_authorize_validated store0 7 0 "ac1" c3Req clientA
        (pySplitSpace (c3Req.scope.getD "")) cbUrl).1 =
      .errorRedirect cbUrl none "invalid_scope" none none :=
  C3_scope_not_id_invalid_scope store0 7 0 "ac1" c3Req clientA cbUrl rfl
    (by decide)

/-- C9: every client_credentials token request that reaches issuance (client
found, active, secret matching) issues the token built with `user=None`, so
the issued token has no bound user — whatever the requested scope and
whichever client requests it. -/
theorem C9_client_credentials_no_user
    (checkpw : Option String → String → Bool) (store : Store) (now : Int)
    (f1 f2 f3 : String) (req : TokenRequest) (client : Client)
    (hgt : req.grant_type = some "client_credentials")
    (hidt : pyTruthy req.client_id = true)
    (hsect : pyTruthy req.client_secret = true)
    (hcid : req.client_id = some client.key)
    (hfind : store.clients.find? (fun c => c.key == client.key) =
      some client)
    (hact : client.active = true)
    (hsec : req.client_secret = some client.secret) :
    (oauth_token checkpw store now f1 f2 f3 req).1 =
      .success
        (oauth_token_success (oauth_make_token none client
          (pySplitSpace (req.scope.getD "")) f1 f2 f3))
        (oauth_make_token none client
          (pySplitSpace (req.scope.getD "")) f1 f2 f3) ∧
    (oauth_make_token none client
        (pySplitSpace (req.scope.getD "")) f1 f2 f3).user_id = none := by
  have hidt' : pyTruthy (some client.key) = true := by
    rw [hcid] at hidt
    exact hidt
  have hsect' : pyTruthy (some client.secret) = true := by
    rw [hsec] at hsect
    exact hsect
  refine ⟨?_, rfl⟩
  simp [oauth_token, hgt, hidt', hsect', hcid, hfind, hact, hsec]
  rfl

/-- C9 witness: the concrete client_credentials request issues `ccToken`,
whose `user_id` is `none`. -/
theorem C9_client_credentials_no_user_witness :
    (oauth_token nopw store0 10 "t1" "r1" "s1" ccReq).1 =
      .success (oauth_token_success ccToken) ccToken ∧
    ccToken.user_id = none :=
  C9_client_credentials_no_user nopw store0 10 "t1" "r1" "s1" ccReq clientA
    rfl (by decide) (by decide) rfl (by decide) (by decide) rfl

/-- C7: in the authorization_code exchange, once the grant is found, a grant
issued more than 60 seconds before `now` fails with the `invalid_grant`
"Expired auth code" error, and a grant issued within the last 60 seconds
(e.g. 59 seconds ago) never produces that error — the expiry check passes
and only later checks can still reject the request. -/
theorem C7_authcode_expiry (checkpw : Option String → String → Bool)
    (store : Store) (now : Int) (f1 f2 f3 : String) (req : TokenRequest)
    (client : Client) (authcode : AuthCode)
    (hgt : req.grant_type = some "authorization_code")
    (hidt : pyTruthy req.client_id = true)
    (hsect : pyTruthy req.client_secret = true)
    (hcid : req.client_id = some client.key)
    (hfind : store.clients.find? (fun c => c.key == client.key) =
      some client)
    (hact : client.active = true)
    (hsec : req.client_secret = some client.secret)
    (hafind : store.authcodes.find?
        (fun a => some a.code == req.code && a.client_id == client.id) =
      some authcode) :
    (authcode.datetime < now - 60 →
      (oauth_token checkpw store now f1 f2 f3 req).1 =
        .error "invalid_grant" (some "Expired auth code")) ∧
    (now - 60 ≤ authcode.datetime →
      (oauth_token checkpw store now f1 f2 f3 req).1 ≠
        .error "invalid_grant" (some "Expired auth code")) := by
  have hidt' : pyTruthy (some client.key) = true := by
    rw [hcid] at hidt
    exact hidt
  have hsect' : pyTruthy (some client.secret) = true := by
    rw [hsec] at hsect
    exact hsect
  have h1 : pyTruthy (some "authorization_code") = true := by decide
  constructor
  · intro hexp
    simp [oauth_token, oauth_token_grant_authcode, hgt, hidt', hsect', hcid,
      hfind, hact, hsec, hafind, h1, hexp, oauth_token_error]
  · intro hok
    have hexp' : ¬(authcode.datetime < now - 60) := not_lt.mpr hok
    simp [oauth_token, oauth_token_grant_authcode, hgt, hidt', hsect', hcid,
      hfind, hact, hsec, hafind, h1, hexp', pySplitSpace_isEmpty,
      oauth_token_error]
    split
    · simp
    · split
      · simp
      · simp

/-- C7 witness: the grant issued at time 0 is rejected as expired at time
100 and passes the expiry check at time 59. -/
theorem C7_authcode_expiry_witness :
    (oauth_token nopw store0 100 "t1" "r1" "s1" c1Req).1 =
      .error "invalid_grant" (some "Expired auth code") ∧
    (oauth_token nopw store0 59 "t1" "r1" "s1" c1Req).1 ≠
      .error "invalid_grant" (some "Expired auth code") :=
  ⟨(C7_authcode_expiry nopw store0 100 "t1" "r1" "s1" c1Req clientA authcodeA
      (by decide) (by decide) (by decide) (by decide) (by decide) (by decide)
      (by decide) (by decide)).1 (by decide),
   (C7_authcode_expiry nopw store0 59 "t1" "r1" "s1" c1Req clientA authcodeA
      (by decide) (by decide) (by decide) (by decide) (by decide) (by decide)
      (by decide) (by decide)).2 (by decide)⟩

/-- Any success response the password-grant tail produces is the standard
three-key body for a fresh zero-validity bearer token. -/
theorem oauth_token_password_finish_success
    (checkpw : Option String → String → Bool) (store : Store)
    (client : Client) (scope : List String) (password : String)
    (user : Option User) (f1 f2 f3 : String) (ps : List (String × String))
    (tok : AuthToken)
    (h : (oauth_token_password_finish checkpw store client scope password
        user f1 f2 f3).1 = .success ps tok) :
    tok.validity = 0 ∧ tok.token_type = "bearer" ∧
    ps = oauth_token_success tok ∧
    ps.map Prod.fst = ["access_token", "token_type", "scope"] := by
  simp only [oauth_token_password_finish] at h
  repeat' split at h
  all_goals
    first
      | (injection h
         done)
      | (injection h with h1 h2
         subst h2
         subst h1
         exact ⟨rfl, rfl, rfl, by simp [oauth_token_success,
           oauth_make_token]⟩)

/-- Any success response the authorization_code branch produces is the
standard three-key body for a fresh zero-validity bearer token. -/
theorem oauth_token_grant_authcode_success (store : Store) (client : Client)
    (now : Int) (scope : List String) (req : TokenRequest)
    (f1 f2 f3 : String) (ps : List (String × String)) (tok : AuthToken)
    (h : (oauth_token_grant_authcode store client now scope req
        f1 f2 f3).1 = .success ps tok) :
    tok.validity = 0 ∧ tok.token_type = "bearer" ∧
    ps = oauth_token_success tok ∧
    ps.map Prod.fst = ["access_token", "token_type", "scope"] := by
  simp only [oauth_token_grant_authcode] at h
  repeat' split at h
  all_goals
    first
      | (injection h
         done)
      | (injection h with h1 h2
         subst h2
         subst h1
         exact ⟨rfl, rfl, rfl, by simp [oauth_token_success,
           oauth_make_token]⟩)

/-- Any success response the client_credentials branch produces is the
standard three-key body for a fresh zero-validity bearer token. -/
theorem oauth_token_grant_clientcred_success (store : Store)
    (client : Client) (scope : List String) (f1 f2 f3 : String)
    (ps : List (String × String)) (tok : AuthToken)
    (h : (oauth_token_grant_clientcred store client scope f1 f2 f3).1 =
      .success ps tok) :
    tok.validity = 0 ∧ tok.token_type = "bearer" ∧
    ps = oauth_token_success tok ∧
    ps.map Prod.fst = ["access_token", "token_type", "scope"] := by
  simp only [oauth_token_grant_clientcred] at h
  injection h with h1 h2
  subst h2
  subst h1
  exact ⟨rfl, rfl, rfl, by simp [oauth_token_success, oauth_make_token]⟩

/-- Any success response the password branch produces is the standard
three-key body for a fresh zero-validity bearer token. -/
theorem oauth_token_grant_password_success
    (checkpw : Option String → String → Bool) (store : Store)
    (client : Client) (scope : List String) (req : TokenRequest)
    (f1 f2 f3 : String) (ps : List (String × String)) (tok : AuthToken)
    (h : (oauth_token_grant_password checkpw store client scope req
        f1 f2 f3).1 = .success ps tok) :
    tok.validity = 0 ∧ tok.token_type = "bearer" ∧
    ps = oauth_token_success tok ∧
    ps.map Prod.fst = ["access_token", "token_type", "scope"] := by
  simp only [oauth_token_grant_password] at h
  repeat' split at h
  all_goals
    first
      | injection h
      | exact oauth_token_password_finish_success _ _ _ _ _ _ _ _ _ _ _ h

/-- C10: every success response of the token endpoint (any grant type)
carries a token with validity 0 and token_type "bearer", and its body
consists of exactly the keys access_token, token_type and scope — never
expires_in or refresh_token. -/
theorem C10_issued_token_shape (checkpw : Option String → String → Bool)
    (store : Store) (now : Int) (f1 f2 f3 : String) (req : TokenRequest)
    (ps : List (String × String)) (tok : AuthToken)
    (h : (oauth_token checkpw store now f1 f2 f3 req).1 = .success ps tok) :
    tok.validity = 0 ∧ tok.token_type = "bearer" ∧
    ps = oauth_token_success tok ∧
    ps.map Prod.fst = ["access_token", "token_type", "scope"] := by
  simp only [oauth_token] at h
  repeat' split at h
  all_goals
    first
      | (injection h
         done)
      | exact oauth_token_grant_authcode_success _ _ _ _ _ _ _ _ _ _ h
      | exact oauth_token_grant_clientcred_success _ _ _ _ _ _ _ _ h
      | exact oauth_token_grant_password_success _ _ _ _ _ _ _ _ _ _ h

/-- C10 witness: the concrete client_credentials success response. -/
theorem C10_issued_token_shape_witness :
    ccToken.validity = 0 ∧ ccToken.token_type = "bearer" ∧
    oauth_token_success ccToken = oauth_token_success ccToken ∧
    (oauth_token_success ccToken).map Prod.fst =
      ["access_token", "token_type", "scope"] :=
  C10_issued_token_shape nopw store0 10 "t1" "r1" "s1" ccReq
    (oauth_token_success ccToken) ccToken (by decide)

end Lastuser
